import Mathlib

/-! # Operator / kernel dispatch core of `framework/operator.h`

A shallow embedding of `src/framework/operator.h` (Paddle-Lite, mobile
runtime): the role lookup `GetVarValue`, the `OperatorWithKernels` life cycle
(`Init`, `RunImpl`, `ClearVariables`), the kernel registration generated by
`DECLARE_OPERATOR_WITH_PARAMS`, and `FusionOpMatcher::FolderNodes`.

Conditional compilation (`#ifdef PADDLE_MOBILE_CPU / _CL / _FPGA`) is made an
explicit `BuildConfig` argument.  C++ exceptions and undefined behaviour are
explicit result values.
-/

namespace paddle_mobile
namespace framework

/-! ## Role maps and the variable store -/

/-- The type `VariableNameMap` (`common/type_define.h`): a map from a role name
to the ordered list of variable names bound to the role. -/
abbrev VariableNameMap := List (String × List String)

/-- The call `var_map.at(key)`: the names mapped to `key`, `none` when the key
is absent (where `std::map::at` throws `std::out_of_range`). -/
def VariableNameMap.at : VariableNameMap → String → Option (List String)
  | [], _ => none
  | (k, names) :: rest, key => if k = key then some names else VariableNameMap.at rest key

/-- Modelled from the spec: the Variable Store (`framework/scope.h` is not part
of the sources): named mutable containers, looked up by name.  `V` is the type
of a `Variable`. -/
structure Scope (V : Type) where
  /-- The variables held by the store, by name. -/
  vars : List (String × V)
  /-- The device execution context returned by `GetCLScpoe()`. -/
  cl_scope : Nat

/-- Modelled from the spec: lookup-by-name, "returns absent if unknown"; the
result is a `Variable *`, so absent is the null pointer (`none`). -/
def Scope.FindVar {V : Type} (scope : Scope V) (name : String) : Option V :=
  (scope.vars.find? (fun e => e.1 == name)).map Prod.snd

/-- Modelled from the spec: batch release of named Variables. -/
def Scope.EraseVars {V : Type} (scope : Scope V) (var_names : List String) : Scope V :=
  { scope with vars := scope.vars.filter (fun e => !var_names.contains e.1) }

/-- What a call of `GetVarValue<T>` does. -/
inductive Fetched (V : Type) where
  /-- Returns `var->GetMutable<T>()`, the mutable handle of variable `var`. -/
  | handle (var : V)
  /-- Returns `nullptr`. -/
  | null
  /-- The call `var_map.at(key)` throws `std::out_of_range`. -/
  | out_of_range
  /-- The call `var->GetMutable<T>()` is made through a null `var`: undefined
  behaviour, in practice a crash. -/
  | null_dereference
  deriving DecidableEq, Repr

/-- The function `GetVarValue<T>(key, var_map, scope)`.  The second component
lists the names passed to `scope.FindVar`, in order. -/
def GetVarValue {V : Type} (key : String) (var_map : VariableNameMap) (scope : Scope V) :
    Fetched V × List String :=
  match var_map.at key with
  | none => (Fetched.out_of_range, [])
  | some var_vec =>
    match var_vec with
    | var_name :: _ =>
      match scope.FindVar var_name with
      | some var => (Fetched.handle var, [var_name])
      | none => (Fetched.null_dereference, [var_name])
    | [] => (Fetched.null, [])

/-! ## Build configuration, device tags and kernels -/

/-- The preprocessor symbols that select the compiled-in devices. -/
structure BuildConfig where
  PADDLE_MOBILE_CPU : Bool
  PADDLE_MOBILE_CL : Bool
  PADDLE_MOBILE_FPGA : Bool
  deriving DecidableEq, Repr

/-- The device tags `TYPE_CPU`, `TYPE_GPU`, `TYPE_FPGA` of `RunTimeType`
(`common/types.h`), the key type of `OperatorWithKernels::kernels`. -/
inductive RunTimeType where
  | TYPE_CPU
  | TYPE_GPU
  | TYPE_FPGA
  deriving DecidableEq, Repr

/-- The `DeviceName` token pasted by the registration directives
(`kernel##DeviceName##_`). -/
inductive DeviceName where
  | Cpu
  | Gpu
  | Fpga
  deriving DecidableEq, Repr

/-- Whether the device of a tag is compiled in. -/
def BuildConfig.compiled (cfg : BuildConfig) : RunTimeType → Bool
  | RunTimeType.TYPE_CPU => cfg.PADDLE_MOBILE_CPU
  | RunTimeType.TYPE_GPU => cfg.PADDLE_MOBILE_CL
  | RunTimeType.TYPE_FPGA => cfg.PADDLE_MOBILE_FPGA

/-- The class `OpKernelBase<P>`, instrumented: the virtual `Init` is a field,
`Compute` (pure virtual; its effect on tensor storage is not modelled) and
`Init` count their invocations. -/
structure OpKernelBase (P : Type) where
  /-- Which member `kernel##DeviceName##_` the object was copied from. -/
  device : DeviceName
  /-- The virtual `bool Init(P *para)`: the result and the parameter it leaves. -/
  Init : P → Bool × P
  /-- The member `cl_helper_`: the context it was built from, if any. -/
  cl_helper_ : Option Nat
  /-- Number of `Compute` invocations so far. -/
  compute_calls : Nat
  /-- Number of `Init` invocations so far. -/
  init_calls : Nat

/-- The method `InitCLHelper(clScope)`: `cl_helper_ = CLHelper(clScope)`. -/
def OpKernelBase.InitCLHelper {P : Type} (k : OpKernelBase P) (clScope : Nat) : OpKernelBase P :=
  { k with cl_helper_ := some clScope }

/-- One invocation of `Compute(para)`. -/
def OpKernelBase.Compute {P : Type} (k : OpKernelBase P) (_para : P) : OpKernelBase P :=
  { k with compute_calls := k.compute_calls + 1 }

/-- The member `kernels`, a `std::unordered_map<RunTimeType, OpKernelBase<P>>`:
at most one kernel per tag. -/
abbrev KernelMap (P : Type) := RunTimeType → Option (OpKernelBase P)

/-- The call `kernels.at(t)`, `none` where it throws `std::out_of_range`. -/
def KernelMap.at {P : Type} (kernels : KernelMap P) (t : RunTimeType) : Option (OpKernelBase P) :=
  kernels t

/-- Assignment through the reference returned by `kernels.at(t)`. -/
def KernelMap.set {P : Type} (kernels : KernelMap P) (t : RunTimeType) (k : OpKernelBase P) :
    KernelMap P :=
  fun u => if u = t then some k else kernels u

/-- Insertion of the entry `(t, k)` into the registry: an existing entry is
kept. -/
def KernelMap.insert {P : Type} (kernels : KernelMap P) (t : RunTimeType) (k : OpKernelBase P) :
    KernelMap P :=
  match kernels t with
  | some _ => kernels
  | none => KernelMap.set kernels t k

/-! ## `OperatorBase` and `OperatorWithKernels` -/

/-- How an operation ends abnormally. -/
inductive Failure where
  /-- The call `kernels.at(...)` throws `std::out_of_range`. -/
  | out_of_range
  /-- The condition of a `PADDLE_MOBILE_ENFORCE` is false. -/
  | enforce_failed
  /-- A member is accessed through a null pointer. -/
  | null_dereference
  /-- The translation unit invokes a name that no directive defines. -/
  | ill_formed
  deriving DecidableEq, Repr

/-- The state of an `OperatorWithKernels<T, ParamType>` object: the members of
`OperatorBase` followed by `kernels` and `param_`.  `P` is `ParamType`, `A` is
`AttributeMap`, `V` is `Variable`; the store behind the pointer `scope_` is
part of the state. -/
structure OperatorWithKernels (P A V : Type) where
  scope_ : Option (Scope V)
  type_ : String
  inputs_ : VariableNameMap
  outputs_ : VariableNameMap
  attrs_ : A
  kernels : KernelMap P
  param_ : P

variable {P A V : Type}

/-- The accessor `Inputs()`. -/
def OperatorWithKernels.Inputs (op : OperatorWithKernels P A V) : VariableNameMap := op.inputs_

/-- The accessor `Outputs()`. -/
def OperatorWithKernels.Outputs (op : OperatorWithKernels P A V) : VariableNameMap := op.outputs_

/-- The accessor `Type()`. -/
def OperatorWithKernels.Type (op : OperatorWithKernels P A V) : String := op.type_

/-- The accessor `Attrs()`. -/
def OperatorWithKernels.Attrs (op : OperatorWithKernels P A V) : A := op.attrs_

/-- The method `ClearVariables(var_names)`:
`if (this->scope_) this->scope_->EraseVars(var_names);`. -/
def OperatorWithKernels.ClearVariables (op : OperatorWithKernels P A V)
    (var_names : List String) : OperatorWithKernels P A V :=
  match op.scope_ with
  | some scope => { op with scope_ := some (scope.EraseVars var_names) }
  | none => op

/-- The constructor `OperatorWithKernels(type, inputs, outputs, attrs, scope)`.
The base `OperatorBase` stores its arguments (modelled from the spec: its
definition is not part of the sources), `kernels` is default-constructed
empty, `param_` is built by the constructor `ParamType` of the parameter
class, and under `PADDLE_MOBILE_CL` the body runs
`kernels.at(TYPE_GPU).InitCLHelper(scope->GetCLScpoe())`. -/
def OperatorWithKernels.ctor (cfg : BuildConfig)
    (ParamType : VariableNameMap → VariableNameMap → A → Option (Scope V) → P)
    (type : String) (inputs outputs : VariableNameMap) (attrs : A) (scope : Option (Scope V)) :
    Except Failure (OperatorWithKernels P A V) :=
  let op : OperatorWithKernels P A V :=
    { scope_ := scope, type_ := type, inputs_ := inputs, outputs_ := outputs, attrs_ := attrs,
      kernels := fun _ => none, param_ := ParamType inputs outputs attrs scope }
  if cfg.PADDLE_MOBILE_CL then
    match op.kernels.at RunTimeType.TYPE_GPU with
    | none => Except.error Failure.out_of_range
    | some k =>
      match scope with
      | none => Except.error Failure.null_dereference
      | some s =>
        Except.ok { op with kernels := op.kernels.set RunTimeType.TYPE_GPU (k.InitCLHelper s.cl_scope) }
  else Except.ok op

/-- The method `RunImpl()`: under `PADDLE_MOBILE_CPU`,
`kernels.at(TYPE_CPU).Compute(this->param_)`, and nothing else. -/
def OperatorWithKernels.RunImpl (cfg : BuildConfig) (op : OperatorWithKernels P A V) :
    Option Failure × OperatorWithKernels P A V :=
  if cfg.PADDLE_MOBILE_CPU then
    match op.kernels.at RunTimeType.TYPE_CPU with
    | none => (some Failure.out_of_range, op)
    | some k => (none, { op with kernels := op.kernels.set RunTimeType.TYPE_CPU (k.Compute op.param_) })
  else (none, op)

/-- One statement `PADDLE_MOBILE_ENFORCE(kernels.at(t).Init(&param_), ...)` of
`Init()`.  Modelled from the spec: `PADDLE_MOBILE_ENFORCE` (`common/enforce.h`
is not part of the sources) is fatal when its condition is false. -/
def OperatorWithKernels.InitKernel (t : RunTimeType) (op : OperatorWithKernels P A V) :
    Option Failure × OperatorWithKernels P A V :=
  match op.kernels.at t with
  | none => (some Failure.out_of_range, op)
  | some k =>
    let r := k.Init op.param_
    let op' : OperatorWithKernels P A V :=
      { op with kernels := op.kernels.set t { k with init_calls := k.init_calls + 1 },
                param_ := r.2 }
    if r.1 then (none, op') else (some Failure.enforce_failed, op')

/-- One conditionally compiled block of `Init()`: skipped when the preceding
statements failed or the device is not compiled in. -/
def OperatorWithKernels.InitStep (cfg : BuildConfig) (t : RunTimeType)
    (s : Option Failure × OperatorWithKernels P A V) :
    Option Failure × OperatorWithKernels P A V :=
  match s.1 with
  | some e => (some e, s.2)
  | none => if cfg.compiled t then OperatorWithKernels.InitKernel t s.2 else (none, s.2)

/-- The method `Init()`: the CPU, GPU and FPGA kernels are initialised in this
order, each under its `#ifdef`. -/
def OperatorWithKernels.Init (cfg : BuildConfig) (op : OperatorWithKernels P A V) :
    Option Failure × OperatorWithKernels P A V :=
  OperatorWithKernels.InitStep cfg RunTimeType.TYPE_FPGA
    (OperatorWithKernels.InitStep cfg RunTimeType.TYPE_GPU
      (OperatorWithKernels.InitStep cfg RunTimeType.TYPE_CPU (none, op)))

/-- The operator state after `N` consecutive `RunImpl()` dispatches (a
dispatch that throws leaves the state as it was). -/
def OperatorWithKernels.RunImplN (cfg : BuildConfig) :
    Nat → OperatorWithKernels P A V → OperatorWithKernels P A V
  | 0, op => op
  | N + 1, op => OperatorWithKernels.RunImplN cfg N (OperatorWithKernels.RunImpl cfg op).2

/-- The instrumented counter: `Compute` invocations on the kernel registered
under tag `t` (0 when there is none). -/
def OperatorWithKernels.computeCalls (op : OperatorWithKernels P A V) (t : RunTimeType) : Nat :=
  match op.kernels.at t with
  | some k => k.compute_calls
  | none => 0

/-- The `Compute` invocations summed over all registered kernels. -/
def OperatorWithKernels.totalComputeCalls (op : OperatorWithKernels P A V) : Nat :=
  op.computeCalls RunTimeType.TYPE_CPU + op.computeCalls RunTimeType.TYPE_GPU
    + op.computeCalls RunTimeType.TYPE_FPGA

/-! ## Kernel registration: `INIT_KERNEKS_*` and `DECLARE_OPERATOR_WITH_PARAMS` -/

/-- The three names invoked in the constructor body generated by
`DECLARE_OPERATOR_WITH_PARAMS`. -/
inductive InitKerneks where
  | INIT_KERNEKS_CPU
  | INIT_KERNEKS_GPU
  | INIT_KERNEKS_FPGA
  deriving DecidableEq, Repr

/-- The replacement text of a `#define INIT_KERNEKS_*`. -/
inductive Replacement where
  /-- The text `;`. -/
  | empty
  /-- The text `INIT_KERNEKS(OpName, OpParam, KernelType, DeviceName);`, that is
  `kernels.insert(KernelType, kernel##DeviceName##_);`. -/
  | INIT_KERNEKS (KernelType : RunTimeType) (DeviceName : DeviceName)
  deriving DecidableEq, Repr

/-- The `#define INIT_KERNEKS_*` directives that survive conditional
compilation, in source order (lines 228-269 of `operator.h`).  Under
`PADDLE_MOBILE_FPGA` the directive at line 263 defines `INIT_KERNEKS_GPU`. -/
def defines (cfg : BuildConfig) : List (InitKerneks × Replacement) :=
  [ if cfg.PADDLE_MOBILE_CPU then
      (InitKerneks.INIT_KERNEKS_CPU, Replacement.INIT_KERNEKS RunTimeType.TYPE_CPU DeviceName.Cpu)
    else (InitKerneks.INIT_KERNEKS_CPU, Replacement.empty),
    if cfg.PADDLE_MOBILE_CL then
      (InitKerneks.INIT_KERNEKS_GPU, Replacement.INIT_KERNEKS RunTimeType.TYPE_GPU DeviceName.Gpu)
    else (InitKerneks.INIT_KERNEKS_GPU, Replacement.empty),
    if cfg.PADDLE_MOBILE_FPGA then
      (InitKerneks.INIT_KERNEKS_GPU, Replacement.INIT_KERNEKS RunTimeType.TYPE_FPGA DeviceName.Fpga)
    else (InitKerneks.INIT_KERNEKS_FPGA, Replacement.empty) ]

/-- The definition of a name in force after all directives: the last one, or
`none` when the name is never defined. -/
def expansion (cfg : BuildConfig) (name : InitKerneks) : Option Replacement :=
  ((defines cfg).reverse.find? (fun d => d.1 == name)).map Prod.snd

/-- Whether a statement of the generated constructor body compiles.  A name
that no directive defines does not.  Nor does the replacement
`kernels.insert(KernelType, kernel##DeviceName##_);`: no overload of
`std::unordered_map::insert` takes a key and a mapped value, and the mapped
type `OpKernelBase<ParamType>` of the registry is abstract (`Compute` is pure
virtual), so no entry can be built from the kernel member.  Only the
replacement `;` compiles. -/
def wellFormed (cfg : BuildConfig) (name : InitKerneks) : Bool :=
  match expansion cfg name with
  | none => false
  | some Replacement.empty => true
  | some (Replacement.INIT_KERNEKS _ _) => false

/-- The effect one expanded statement of the generated constructor body is
written for: the kernel member `kernel d` (`kernel##d##_`) is entered under
its tag; the statement `;` does nothing. -/
def runInitKerneks (cfg : BuildConfig) (kernel : DeviceName → OpKernelBase P)
    (name : InitKerneks) (op : OperatorWithKernels P A V) : OperatorWithKernels P A V :=
  match expansion cfg name with
  | some (Replacement.INIT_KERNEKS t d) => { op with kernels := op.kernels.insert t (kernel d) }
  | _ => op

/-- Construction of an operator class generated by
`DECLARE_OPERATOR_WITH_PARAMS(OpName, OpParam, KernelNamePrifix)`.  The class
compiles only when each of the three statements `INIT_KERNEKS_CPU;
INIT_KERNEKS_GPU; INIT_KERNEKS_FPGA` of its constructor body does; then the
base constructor `OperatorWithKernels(...)` runs first and the body after it. -/
def DECLARE_OPERATOR_WITH_PARAMS (cfg : BuildConfig)
    (ParamType : VariableNameMap → VariableNameMap → A → Option (Scope V) → P)
    (kernel : DeviceName → OpKernelBase P)
    (type : String) (inputs outputs : VariableNameMap) (attrs : A) (scope : Option (Scope V)) :
    Except Failure (OperatorWithKernels P A V) :=
  if wellFormed cfg InitKerneks.INIT_KERNEKS_CPU && wellFormed cfg InitKerneks.INIT_KERNEKS_GPU
      && wellFormed cfg InitKerneks.INIT_KERNEKS_FPGA then
    match OperatorWithKernels.ctor cfg ParamType type inputs outputs attrs scope with
    | Except.error e => Except.error e
    | Except.ok op =>
      Except.ok
        (runInitKerneks cfg kernel InitKerneks.INIT_KERNEKS_FPGA
          (runInitKerneks cfg kernel InitKerneks.INIT_KERNEKS_GPU
            (runInitKerneks cfg kernel InitKerneks.INIT_KERNEKS_CPU op)))
  else Except.error Failure.ill_formed

/-! ## Graph nodes and `FusionOpMatcher` -/

/-- Modelled from the spec: a Graph Node (`program-optimize/node.h` is not part
of the sources): an operator type with edges to the nodes it feeds. -/
inductive Node where
  | mk (type_ : String) (outputs_ : List Node)

/-- The type query `Type()` of a node. -/
def Node.Type : Node → String
  | Node.mk type_ _ => type_

/-- The edges of a node. -/
def Node.outputs : Node → List Node
  | Node.mk _ outputs_ => outputs_

mutual
/-- Modelled from the spec: the depth query of a node, the number of nodes on
its longest outgoing path. -/
def Node.Depth : Node → Nat
  | Node.mk _ outputs_ => 1 + Node.DepthOfList outputs_
/-- The largest depth in a list of nodes. -/
def Node.DepthOfList : List Node → Nat
  | [] => 0
  | n :: ns => max (Node.Depth n) (Node.DepthOfList ns)
end

mutual
/-- The nodes reached from a node by exactly `k` edges. -/
def Node.level : Nat → Node → List Node
  | 0, n => [n]
  | k + 1, Node.mk _ outputs_ => Node.levelOfList k outputs_
/-- The nodes reached from the nodes of a list by exactly `k` edges. -/
def Node.levelOfList : Nat → List Node → List Node
  | _, [] => []
  | k, n :: ns => Node.level k n ++ Node.levelOfList k ns
end

/-- Modelled from the spec: the fold operation `Folder(size, type, change,
removed_nodes)` of a node: walking outward to depth `size`, the node is
rewritten to the fused type `type`, takes over the edges that leave the
folded nodes, and the folded nodes below it are appended to `removed_nodes`. -/
def Node.Folder (node : Node) (size : Nat) (type : String)
    (_change : List (String × List (String × String))) (removed_nodes : List Node) :
    Node × List Node :=
  (Node.mk type (Node.level size node),
   removed_nodes ++ (List.range' 1 (size - 1)).flatMap (fun k => Node.level k node))

/-- The class `FusionOpMatcher`: the pattern `node_`, and what the virtual
`Type()` and `NeedCheck()` of the concrete matcher return. -/
structure FusionOpMatcher where
  node_ : Node
  /-- The result of the pure virtual `Type()`. -/
  fusedType : String
  /-- The result of `NeedCheck()`: (edge-depth, attribute-name) constraints. -/
  NeedCheck : List (Int × String)

/-- The method `Type()`. -/
def FusionOpMatcher.Type (m : FusionOpMatcher) : String := m.fusedType

/-- The method `BeginType()`. -/
def FusionOpMatcher.BeginType (m : FusionOpMatcher) : String := m.node_.Type

/-- The method `FolderNodes(node, removed_nodes)`:
`node->Folder(node_.Depth(), Type(), {}, removed_nodes)`.  The result is the
rewritten candidate and the removed-node list. -/
def FusionOpMatcher.FolderNodes (m : FusionOpMatcher) (node : Node) (removed_nodes : List Node) :
    Node × List Node :=
  node.Folder m.node_.Depth m.Type [] removed_nodes

/-! ## Concrete inputs -/

/-- A kernel of device `d` whose `Init` succeeds and leaves the parameter. -/
def sampleKernel (d : DeviceName) : OpKernelBase Unit :=
  { device := d, Init := fun p => (true, p), cl_helper_ := none, compute_calls := 0,
    init_calls := 0 }

/-- A parameter class without content. -/
def sampleParam : VariableNameMap → VariableNameMap → Unit → Option (Scope Nat) → Unit :=
  fun _ _ _ _ => ()

/-- A store with one variable. -/
def sampleScope : Scope Nat := { vars := [("a", 7)], cl_scope := 1 }

/-- A store without variables. -/
def emptyScope : Scope Nat := { vars := [], cl_scope := 1 }

/-- A build with the FPGA device only. -/
def fpgaOnly : BuildConfig :=
  { PADDLE_MOBILE_CPU := false, PADDLE_MOBILE_CL := false, PADDLE_MOBILE_FPGA := true }

/-- A build with all three devices. -/
def allDevices : BuildConfig :=
  { PADDLE_MOBILE_CPU := true, PADDLE_MOBILE_CL := true, PADDLE_MOBILE_FPGA := true }

/-- An operator state with the kernels `kernels`. -/
def sampleOperator (kernels : KernelMap Unit) : OperatorWithKernels Unit Unit Nat :=
  { scope_ := some sampleScope, type_ := "conv2d", inputs_ := [("Input", ["a"])],
    outputs_ := [("Output", ["b"])], attrs_ := (), kernels := kernels, param_ := () }

/-- An operator of the FPGA-only build as a hand-written subclass obtains it:
the base constructor `OperatorWithKernels(...)` followed by the entry of the
FPGA kernel under `TYPE_FPGA` in the public member `kernels`; `none` when the
base constructor fails. -/
def fpgaOperator : Option (OperatorWithKernels Unit Unit Nat) :=
  match OperatorWithKernels.ctor fpgaOnly sampleParam "conv2d" [("Input", ["a"])]
      [("Output", ["b"])] () (some sampleScope) with
  | Except.ok op =>
    some { op with kernels := op.kernels.insert RunTimeType.TYPE_FPGA (sampleKernel DeviceName.Fpga) }
  | Except.error _ => none

/-- A registry with each device's kernel under its tag. -/
def allKernels : KernelMap Unit
  | RunTimeType.TYPE_CPU => some (sampleKernel DeviceName.Cpu)
  | RunTimeType.TYPE_GPU => some (sampleKernel DeviceName.Gpu)
  | RunTimeType.TYPE_FPGA => some (sampleKernel DeviceName.Fpga)

/-- A matcher for the pattern `conv2d -> elementwise_add` with one constraint. -/
def convAddMatcher : FusionOpMatcher :=
  { node_ := Node.mk "conv2d" [Node.mk "elementwise_add" []],
    fusedType := "fusion_conv_add",
    NeedCheck := [(1, "Y")] }

/-- The candidate chain `conv2d -> elementwise_add -> relu`. -/
def convAddRelu : Node :=
  Node.mk "conv2d" [Node.mk "elementwise_add" [Node.mk "relu" []]]

/-- A reading of the constraints under which none holds. -/
def noConstraintHolds : Node → Int × String → Bool := fun _ _ => false

/-! ## Lemmas on the kernel registry -/

theorem KernelMap.at_set_other (kernels : KernelMap P) (t u : RunTimeType) (k : OpKernelBase P)
    (h : u ≠ t) : KernelMap.at (KernelMap.set kernels t k) u = KernelMap.at kernels u := by
  simp [KernelMap.at, KernelMap.set, h]

/-! ## `GetVarValue` -/

/-- C10: when the role key is present with an empty name list, `GetVarValue`
returns the null handle, raises no error and passes no name to the store
lookup, whatever the store holds. -/
theorem GetVarValue_empty_name_list {V : Type} (key : String) (var_map : VariableNameMap)
    (scope : Scope V) (hkey : var_map.at key = some []) :
    GetVarValue key var_map scope = (Fetched.null, []) := by
  simp [GetVarValue, hkey]

theorem GetVarValue_empty_name_list_witness :
    VariableNameMap.at [("Bias", [])] "Bias" = some [] ∧
      GetVarValue "Bias" [("Bias", [])] sampleScope = (Fetched.null, []) :=
  ⟨by decide, GetVarValue_empty_name_list "Bias" [("Bias", [])] sampleScope (by decide)⟩

/-- C4: when the role key maps to a non-empty name list whose first name is in
the store, `GetVarValue` returns the mutable handle of the variable stored
under that first name; the result is the same for every role map that binds
the key to a list with this first name, so it depends neither on the remaining
names nor on the other roles. -/
theorem GetVarValue_first_name {V : Type} (key : String) (var_map : VariableNameMap)
    (scope : Scope V) (first : String) (others : List String) (var : V)
    (hkey : var_map.at key = some (first :: others)) (hvar : scope.FindVar first = some var) :
    (GetVarValue key var_map scope).1 = Fetched.handle var ∧
      ∀ (var_map' : VariableNameMap) (others' : List String),
        var_map'.at key = some (first :: others') →
          GetVarValue key var_map' scope = GetVarValue key var_map scope := by
  refine ⟨by simp [GetVarValue, hkey, hvar], ?_⟩
  intro var_map' others' hkey'
  simp [GetVarValue, hkey, hkey', hvar]

theorem GetVarValue_first_name_witness :
    VariableNameMap.at [("Input", ["a", "zz"]), ("Filter", ["w"])] "Input" = some ["a", "zz"] ∧
      sampleScope.FindVar "a" = some 7 ∧
      (GetVarValue "Input" [("Input", ["a", "zz"]), ("Filter", ["w"])] sampleScope).1
        = Fetched.handle 7 :=
  ⟨by decide, by decide,
    (GetVarValue_first_name "Input" [("Input", ["a", "zz"]), ("Filter", ["w"])] sampleScope
      "a" ["zz"] 7 (by decide) (by decide)).1⟩

/-- C3: at the role map `Input -> [a]` and a store without variables the key is
declared with a non-empty list whose first name has no entry, and
`GetVarValue` calls `GetMutable` through the null pointer returned by
`FindVar`: no binding error is raised. -/
theorem GetVarValue_missing_variable :
    VariableNameMap.at [("Input", ["a"])] "Input" = some ["a"] ∧
      emptyScope.FindVar "a" = none ∧
      GetVarValue "Input" [("Input", ["a"])] emptyScope = (Fetched.null_dereference, ["a"]) := by
  decide

/-! ## `RunImpl` -/

/-- C1: in the FPGA-only build the base constructor completes and the operator
with the FPGA kernel registered under `TYPE_FPGA` has a compiled-in device
with its kernel registered, yet a `RunImpl` dispatch on it completes with the
`Compute` count of every kernel as before: `Compute` is invoked 0 times, not
once, because the body of `RunImpl` ("to be impl with config") only handles
the CPU device. -/
theorem RunImpl_fpga_only_computes_nothing :
    ∃ op, fpgaOperator = some op ∧
      (fpgaOnly.compiled RunTimeType.TYPE_FPGA = true ∧
        (op.kernels.at RunTimeType.TYPE_FPGA).isSome = true) ∧
      (OperatorWithKernels.RunImpl fpgaOnly op).1 = none ∧
      (OperatorWithKernels.RunImpl fpgaOnly op).2.totalComputeCalls = op.totalComputeCalls ∧
      (OperatorWithKernels.RunImpl fpgaOnly op).2.totalComputeCalls ≠ op.totalComputeCalls + 1 :=
  ⟨_, rfl, ⟨by decide, by decide⟩, by decide, by decide, by decide⟩

/-- In a build with the CPU device compiled in and a kernel registered under
`TYPE_CPU`, a `RunImpl` dispatch completes and invokes `Compute` exactly once
in total over all registered kernels, on the kernel under `TYPE_CPU`. -/
theorem RunImpl_cpu_computes_once (cfg : BuildConfig) (op : OperatorWithKernels P A V)
    (hcpu : cfg.PADDLE_MOBILE_CPU = true)
    (hreg : (op.kernels.at RunTimeType.TYPE_CPU).isSome = true) :
    (OperatorWithKernels.RunImpl cfg op).1 = none ∧
      (OperatorWithKernels.RunImpl cfg op).2.totalComputeCalls = op.totalComputeCalls + 1 ∧
      (OperatorWithKernels.RunImpl cfg op).2.computeCalls RunTimeType.TYPE_CPU
        = op.computeCalls RunTimeType.TYPE_CPU + 1 := by
  obtain ⟨k, hk⟩ := Option.isSome_iff_exists.mp hreg
  have hk' : op.kernels RunTimeType.TYPE_CPU = some k := hk
  simp [OperatorWithKernels.RunImpl, hcpu, hk, OperatorWithKernels.totalComputeCalls,
    OperatorWithKernels.computeCalls, KernelMap.at, KernelMap.set, OpKernelBase.Compute, hk']
  omega

/-! ## `Init` -/

/-- One block of `Init()` against an assignment `r` of `Init` results: when it
completes, which kernels are registered afterwards, and that the assignment
still describes them. -/
theorem OperatorWithKernels.InitStep_spec (cfg : BuildConfig) (t : RunTimeType)
    (s : Option Failure × OperatorWithKernels P A V) (r : RunTimeType → Bool)
    (hr : ∀ u k p, s.2.kernels.at u = some k → (k.Init p).1 = r u) :
    ((OperatorWithKernels.InitStep cfg t s).1 = none ↔
        s.1 = none ∧ (cfg.compiled t = true → (s.2.kernels.at t).isSome = true ∧ r t = true)) ∧
      (∀ u, ((OperatorWithKernels.InitStep cfg t s).2.kernels.at u).isSome
          = (s.2.kernels.at u).isSome) ∧
      (∀ u k p, (OperatorWithKernels.InitStep cfg t s).2.kernels.at u = some k →
          (k.Init p).1 = r u) := by
  obtain ⟨st, op⟩ := s
  cases st with
  | some e => simpa [OperatorWithKernels.InitStep] using hr
  | none =>
    cases hc : cfg.compiled t with
    | false => simpa [OperatorWithKernels.InitStep, hc] using hr
    | true =>
      cases hk : op.kernels.at t with
      | none => simpa [OperatorWithKernels.InitStep, OperatorWithKernels.InitKernel, hc, hk] using hr
      | some k =>
        have hrk : ∀ p, (k.Init p).1 = r t := fun p => hr t k p hk
        have hat : ∀ u, KernelMap.at (KernelMap.set op.kernels t
            { k with init_calls := k.init_calls + 1 }) u
            = if u = t then some { k with init_calls := k.init_calls + 1 } else op.kernels.at u := by
          intro u
          simp [KernelMap.at, KernelMap.set]
        refine ⟨?_, ?_, ?_⟩
        · cases hres : r t <;>
            simp [OperatorWithKernels.InitStep, OperatorWithKernels.InitKernel, hc, hk, hrk, hres]
        · intro u
          cases hres : r t <;>
            by_cases hu : u = t <;>
            simp [OperatorWithKernels.InitStep, OperatorWithKernels.InitKernel, hc, hk, hrk, hres,
              hat, hu]
        · intro u k' p hk'
          have hsel : (if u = t then some { k with init_calls := k.init_calls + 1 }
              else op.kernels.at u) = some k' := by
            cases hres : r t <;>
              simpa [OperatorWithKernels.InitStep, OperatorWithKernels.InitKernel, hc, hk, hrk,
                hres, hat] using hk'
          by_cases hu : u = t
          · simp [hu] at hsel
            subst hu
            rw [← hsel]
            exact hrk p
          · simp [hu] at hsel
            exact hr u k' p hsel

/-- C2: for every build configuration and every assignment `r` of `Init`
results to the registered kernels, `Init()` completes without a fatal error
if and only if every compiled-in device has its kernel registered and that
kernel's `Init` returns true; so one failing kernel `Init` makes `Init()`
fail. -/
theorem Init_completes_iff (cfg : BuildConfig) (op : OperatorWithKernels P A V)
    (r : RunTimeType → Bool)
    (hr : ∀ t k p, op.kernels.at t = some k → (k.Init p).1 = r t) :
    (OperatorWithKernels.Init cfg op).1 = none ↔
      ∀ t, cfg.compiled t = true → (op.kernels.at t).isSome = true ∧ r t = true := by
  have h1 := OperatorWithKernels.InitStep_spec cfg RunTimeType.TYPE_CPU (none, op) r hr
  have h2 := OperatorWithKernels.InitStep_spec cfg RunTimeType.TYPE_GPU
    (OperatorWithKernels.InitStep cfg RunTimeType.TYPE_CPU (none, op)) r h1.2.2
  have h3 := OperatorWithKernels.InitStep_spec cfg RunTimeType.TYPE_FPGA
    (OperatorWithKernels.InitStep cfg RunTimeType.TYPE_GPU
      (OperatorWithKernels.InitStep cfg RunTimeType.TYPE_CPU (none, op))) r h2.2.2
  unfold OperatorWithKernels.Init
  rw [h3.1, h2.1, h1.1, h2.2.1, h1.2.1, h1.2.1]
  constructor
  · rintro ⟨⟨⟨-, hcpu⟩, hgpu⟩, hfpga⟩ t
    cases t
    · exact hcpu
    · exact hgpu
    · exact hfpga
  · intro h
    exact ⟨⟨⟨rfl, h RunTimeType.TYPE_CPU⟩, h RunTimeType.TYPE_GPU⟩, h RunTimeType.TYPE_FPGA⟩

theorem Init_completes_iff_witness :
    (∀ t k p, (sampleOperator allKernels).kernels.at t = some k →
        (k.Init p).1 = (fun _ => true) t) ∧
      ((OperatorWithKernels.Init allDevices (sampleOperator allKernels)).1 = none ↔
        ∀ t, allDevices.compiled t = true →
          ((sampleOperator allKernels).kernels.at t).isSome = true ∧ (fun _ => true) t = true) :=
  have hr : ∀ t k p, (sampleOperator allKernels).kernels.at t = some k →
      (k.Init p).1 = (fun _ => true) t := by
    intro t k p hk
    cases t <;>
      simp [sampleOperator, allKernels, KernelMap.at] at hk <;>
      simp [← hk, sampleKernel]
  ⟨hr, Init_completes_iff allDevices (sampleOperator allKernels) (fun _ => true) hr⟩

/-! ## Frame of the operator identity -/

theorem OperatorWithKernels.InitStep_frame (cfg : BuildConfig) (t : RunTimeType)
    (s : Option Failure × OperatorWithKernels P A V) :
    (OperatorWithKernels.InitStep cfg t s).2.type_ = s.2.type_ ∧
      (OperatorWithKernels.InitStep cfg t s).2.inputs_ = s.2.inputs_ ∧
      (OperatorWithKernels.InitStep cfg t s).2.outputs_ = s.2.outputs_ ∧
      (OperatorWithKernels.InitStep cfg t s).2.attrs_ = s.2.attrs_ := by
  unfold OperatorWithKernels.InitStep OperatorWithKernels.InitKernel
  split
  · simp
  · split
    · split
      · simp
      · simp only []
        split <;> simp
    · simp

/-- C6: each of `Init`, `RunImpl` and `ClearVariables` leaves the operator's
type, input role map, output role map and attribute map as they were, so
`Type()`, `Inputs()`, `Outputs()` and `Attrs()` return the same values after
the operation as before it, whether or not the operation completes. -/
theorem accessors_unchanged (cfg : BuildConfig) (op : OperatorWithKernels P A V)
    (var_names : List String) :
    ((OperatorWithKernels.Init cfg op).2.Type = op.Type ∧
        (OperatorWithKernels.Init cfg op).2.Inputs = op.Inputs ∧
        (OperatorWithKernels.Init cfg op).2.Outputs = op.Outputs ∧
        (OperatorWithKernels.Init cfg op).2.Attrs = op.Attrs) ∧
      ((OperatorWithKernels.RunImpl cfg op).2.Type = op.Type ∧
        (OperatorWithKernels.RunImpl cfg op).2.Inputs = op.Inputs ∧
        (OperatorWithKernels.RunImpl cfg op).2.Outputs = op.Outputs ∧
        (OperatorWithKernels.RunImpl cfg op).2.Attrs = op.Attrs) ∧
      ((op.ClearVariables var_names).Type = op.Type ∧
        (op.ClearVariables var_names).Inputs = op.Inputs ∧
        (op.ClearVariables var_names).Outputs = op.Outputs ∧
        (op.ClearVariables var_names).Attrs = op.Attrs) := by
  refine ⟨?_, ?_, ?_⟩
  · have h1 := OperatorWithKernels.InitStep_frame cfg RunTimeType.TYPE_CPU (none, op)
    have h2 := OperatorWithKernels.InitStep_frame cfg RunTimeType.TYPE_GPU
      (OperatorWithKernels.InitStep cfg RunTimeType.TYPE_CPU (none, op))
    have h3 := OperatorWithKernels.InitStep_frame cfg RunTimeType.TYPE_FPGA
      (OperatorWithKernels.InitStep cfg RunTimeType.TYPE_GPU
        (OperatorWithKernels.InitStep cfg RunTimeType.TYPE_CPU (none, op)))
    simp only [OperatorWithKernels.Type, OperatorWithKernels.Inputs, OperatorWithKernels.Outputs,
      OperatorWithKernels.Attrs, OperatorWithKernels.Init]
    refine ⟨?_, ?_, ?_, ?_⟩
    · rw [h3.1, h2.1, h1.1]
    · rw [h3.2.1, h2.2.1, h1.2.1]
    · rw [h3.2.2.1, h2.2.2.1, h1.2.2.1]
    · rw [h3.2.2.2, h2.2.2.2, h1.2.2.2]
  · simp only [OperatorWithKernels.Type, OperatorWithKernels.Inputs, OperatorWithKernels.Outputs,
      OperatorWithKernels.Attrs, OperatorWithKernels.RunImpl]
    split
    · split <;> simp
    · simp
  · simp only [OperatorWithKernels.Type, OperatorWithKernels.Inputs, OperatorWithKernels.Outputs,
      OperatorWithKernels.Attrs, OperatorWithKernels.ClearVariables]
    split <;> simp

/-! ## Counters of the kernels that are not selected -/

theorem OperatorWithKernels.RunImpl_computeCalls_other (cfg : BuildConfig)
    (op : OperatorWithKernels P A V) (t : RunTimeType) (ht : t ≠ RunTimeType.TYPE_CPU) :
    (OperatorWithKernels.RunImpl cfg op).2.computeCalls t = op.computeCalls t := by
  unfold OperatorWithKernels.RunImpl
  split
  · split
    · rfl
    · simp [OperatorWithKernels.computeCalls, KernelMap.at_set_other _ _ _ _ ht]
  · rfl

theorem OperatorWithKernels.RunImplN_computeCalls_other (cfg : BuildConfig) (N : Nat)
    (op : OperatorWithKernels P A V) (t : RunTimeType) (ht : t ≠ RunTimeType.TYPE_CPU) :
    (OperatorWithKernels.RunImplN cfg N op).computeCalls t = op.computeCalls t := by
  induction N generalizing op with
  | zero => rfl
  | succ N ih =>
    rw [OperatorWithKernels.RunImplN, ih, OperatorWithKernels.RunImpl_computeCalls_other cfg op t ht]

/-- C7: for every build configuration and every number `N` of consecutive
`RunImpl` dispatches on an operator whose GPU and FPGA kernel counters start
at 0, the number of `Compute` invocations on the GPU kernel and on the FPGA
kernel is 0 after the `N` dispatches, and every invocation made is on the
kernel under `TYPE_CPU`. -/
theorem RunImplN_gpu_fpga_never_computed (cfg : BuildConfig) (N : Nat)
    (op : OperatorWithKernels P A V)
    (hgpu : op.computeCalls RunTimeType.TYPE_GPU = 0)
    (hfpga : op.computeCalls RunTimeType.TYPE_FPGA = 0) :
    (OperatorWithKernels.RunImplN cfg N op).computeCalls RunTimeType.TYPE_GPU = 0 ∧
      (OperatorWithKernels.RunImplN cfg N op).computeCalls RunTimeType.TYPE_FPGA = 0 ∧
      (OperatorWithKernels.RunImplN cfg N op).totalComputeCalls
        = (OperatorWithKernels.RunImplN cfg N op).computeCalls RunTimeType.TYPE_CPU := by
  have h1 := OperatorWithKernels.RunImplN_computeCalls_other cfg N op RunTimeType.TYPE_GPU
    (by decide)
  have h2 := OperatorWithKernels.RunImplN_computeCalls_other cfg N op RunTimeType.TYPE_FPGA
    (by decide)
  refine ⟨by rw [h1, hgpu], by rw [h2, hfpga], ?_⟩
  rw [OperatorWithKernels.totalComputeCalls, h1, h2, hgpu, hfpga]
  rfl

theorem RunImplN_gpu_fpga_never_computed_witness :
    (sampleOperator allKernels).computeCalls RunTimeType.TYPE_GPU = 0 ∧
      (sampleOperator allKernels).computeCalls RunTimeType.TYPE_FPGA = 0 ∧
      (OperatorWithKernels.RunImplN allDevices 4 (sampleOperator allKernels)).computeCalls
        RunTimeType.TYPE_GPU = 0 ∧
      (OperatorWithKernels.RunImplN allDevices 4 (sampleOperator allKernels)).computeCalls
        RunTimeType.TYPE_FPGA = 0 :=
  have h := RunImplN_gpu_fpga_never_computed allDevices 4 (sampleOperator allKernels)
    (by decide) (by decide)
  ⟨by decide, by decide, h.1, h.2.1⟩

/-! ## Kernel registration at construction -/

/-- In every build with some device compiled in, the class generated by
`DECLARE_OPERATOR_WITH_PARAMS` is ill-formed: a statement of its constructor
body does not compile. -/
theorem DECLARE_OPERATOR_WITH_PARAMS_ill_formed_of_compiled (cfg : BuildConfig)
    (ParamType : VariableNameMap → VariableNameMap → A → Option (Scope V) → P)
    (kernel : DeviceName → OpKernelBase P)
    (type : String) (inputs outputs : VariableNameMap) (attrs : A) (scope : Option (Scope V))
    (t : RunTimeType) (ht : cfg.compiled t = true) :
    DECLARE_OPERATOR_WITH_PARAMS cfg ParamType kernel type inputs outputs attrs scope
      = Except.error Failure.ill_formed := by
  obtain ⟨cpu, cl, fpga⟩ := cfg
  cases cpu <;> cases cl <;> cases fpga <;> cases t <;>
    simp [BuildConfig.compiled] at ht <;>
    simp [DECLARE_OPERATOR_WITH_PARAMS, wellFormed, expansion, defines]

/-- C8: in a build with the FPGA device compiled in, the directive at line 263
defines `INIT_KERNEKS_GPU` a second time instead of `INIT_KERNEKS_FPGA`: the
name `INIT_KERNEKS_FPGA` invoked by the generated constructor has no
definition, so the operator class is ill-formed and no operator with a kernel
under `TYPE_FPGA` is constructed; with the GPU (CL) device also compiled in,
`INIT_KERNEKS_GPU` stands for the entry of the FPGA kernel and no statement
enters the GPU kernel. -/
theorem DECLARE_OPERATOR_WITH_PARAMS_fpga_ill_formed :
    fpgaOnly.compiled RunTimeType.TYPE_FPGA = true ∧
      expansion fpgaOnly InitKerneks.INIT_KERNEKS_FPGA = none ∧
      expansion fpgaOnly InitKerneks.INIT_KERNEKS_GPU
        = some (Replacement.INIT_KERNEKS RunTimeType.TYPE_FPGA DeviceName.Fpga) ∧
      expansion allDevices InitKerneks.INIT_KERNEKS_GPU
        = some (Replacement.INIT_KERNEKS RunTimeType.TYPE_FPGA DeviceName.Fpga) ∧
      DECLARE_OPERATOR_WITH_PARAMS fpgaOnly sampleParam sampleKernel "conv2d"
          [("Input", ["a"])] [("Output", ["b"])] () (some sampleScope)
        = Except.error Failure.ill_formed := by
  refine ⟨by decide, by decide, by decide, by decide, ?_⟩
  rfl

/-- C9: in every build with the GPU (CL) device compiled in and for every
non-null store, the constructor of `OperatorWithKernels` looks up `TYPE_GPU`
in `kernels` while the registry is still empty (the generated constructor
body that registers the kernels runs after it), so the lookup throws
`std::out_of_range`; and in no such build does the construction of a declared
operator yield an operator. -/
theorem OperatorWithKernels_ctor_CL_lookup_fails (cpu fpga : Bool)
    (ParamType : VariableNameMap → VariableNameMap → A → Option (Scope V) → P)
    (type : String) (inputs outputs : VariableNameMap) (attrs : A) (scope : Scope V) :
    OperatorWithKernels.ctor
        { PADDLE_MOBILE_CPU := cpu, PADDLE_MOBILE_CL := true, PADDLE_MOBILE_FPGA := fpga }
        ParamType type inputs outputs attrs (some scope) = Except.error Failure.out_of_range ∧
      ∀ (kernel : DeviceName → OpKernelBase P) (op : OperatorWithKernels P A V),
        DECLARE_OPERATOR_WITH_PARAMS
            { PADDLE_MOBILE_CPU := cpu, PADDLE_MOBILE_CL := true, PADDLE_MOBILE_FPGA := fpga }
            ParamType kernel type inputs outputs attrs (some scope) ≠ Except.ok op := by
  refine ⟨?_, ?_⟩
  · simp [OperatorWithKernels.ctor, KernelMap.at]
  · intro kernel op
    cases cpu <;> cases fpga <;>
      simp [DECLARE_OPERATOR_WITH_PARAMS, wellFormed, expansion, defines]

/-! ## `FolderNodes` -/

/-- C5 fails: the matcher `conv2d -> elementwise_add` returns the constraint
`(1, Y)` from `NeedCheck()`; with that constraint violated at the candidate
`conv2d -> elementwise_add -> relu`, `FolderNodes` still rewrites the
candidate and appends the folded node to the removed-node list. -/
theorem FolderNodes_folds_despite_violated_constraint :
    (∃ c ∈ convAddMatcher.NeedCheck, noConstraintHolds convAddRelu c = false) ∧
      convAddMatcher.FolderNodes convAddRelu [] ≠ (convAddRelu, []) ∧
      (convAddMatcher.FolderNodes convAddRelu []).2.length = 1 ∧
      (convAddMatcher.FolderNodes convAddRelu []).1.Type = "fusion_conv_add" := by
  refine ⟨⟨(1, "Y"), by simp [convAddMatcher], rfl⟩, ?_, by decide, by decide⟩
  intro h
  have hlen := congrArg (fun r => r.2.length) h
  revert hlen
  decide

/-- C5, amended: `FolderNodes` never consults `NeedCheck()`: for every matcher,
candidate node and removed-node list its result is the same whatever
constraints `NeedCheck()` returns, the candidate is rewritten to the type
`Type()`, and the nodes already in the removed-node list are kept in front of
the appended ones. -/
theorem FolderNodes_independent_of_NeedCheck (m : FusionOpMatcher) (node : Node)
    (removed_nodes : List Node) (checks : List (Int × String)) :
    FusionOpMatcher.FolderNodes { m with NeedCheck := checks } node removed_nodes
        = m.FolderNodes node removed_nodes ∧
      (m.FolderNodes node removed_nodes).1.Type = m.Type ∧
      removed_nodes <+: (m.FolderNodes node removed_nodes).2 := by
  refine ⟨rfl, rfl, ?_⟩
  simp [FusionOpMatcher.FolderNodes, Node.Folder]

end framework
end paddle_mobile
